import Mathlib

/-!
# APIService gateway: a shallow embedding of `src/index.js`

The gateway is an Express application with six route handlers.  Each handler
reads its inputs from the request, possibly performs one `axios` call to the
data service, and writes a status code and a JSON body on the Express
response object.

The embedding keeps that structure:

* JavaScript values are the type `JsValue`; `!x` is `JsValue.truthy`.
* the Express response object is the record `Res` (status code 200 until
  `res.status` is called, no body until `res.json` is called);
* an `axios` call is a value of `AxiosRequest`; the data service is a function
  from calls to `Except AxiosError AxiosResponse` (a resolved or a rejected
  promise), so a handler is a pure function of the request and that function;
* `Date.parse` is a parameter of the create and update handlers: it returns a
  number or `NaN`, or throws, in which case the `catch` block of the handler
  runs;
* a handler returns the final `Res`, the list of downstream calls it made and
  the lines it wrote with `console.error`.
-/

namespace APIService

/-! ## JavaScript values -/

/-- JavaScript values that a JSON body, a parsed query string or a missing
property can hold.  Numbers are kept as integers: the handlers only observe
whether a number is zero. -/
inductive JsValue where
  | undefined : JsValue
  | null : JsValue
  | bool (b : Bool) : JsValue
  | num (n : Int) : JsValue
  | str (s : String) : JsValue
  | arr (items : List JsValue) : JsValue
  | obj (fields : List (String × JsValue)) : JsValue

namespace JsValue

/-- JavaScript truthiness (`ToBoolean`): `undefined`, `null`, `false`, `0` and
the empty string are falsy, everything else (arrays and objects included) is
truthy. -/
def truthy : JsValue → Bool
  | undefined => false
  | null => false
  | bool b => b
  | num n => n != 0
  | str s => s != ""
  | arr _ => true
  | obj _ => true

/-- A property is missing when reading it gives `undefined`. -/
def isMissing : JsValue → Bool
  | undefined => true
  | _ => false

/-- A property is present when reading it gives anything but `undefined`. -/
def isPresent (v : JsValue) : Bool := !v.isMissing

/-- A text field is empty when it is the empty string. -/
def isEmptyText : JsValue → Bool
  | str s => s == ""
  | _ => false

/-- A field is missing or empty. -/
def missingOrEmpty (v : JsValue) : Bool := v.isMissing || v.isEmptyText

end JsValue

/-- Property read `o.k` on a plain object given by its key/value pairs:
`undefined` when the key is not there. -/
def getProp (o : List (String × JsValue)) (k : String) : JsValue :=
  match o.lookup k with
  | some v => v
  | none => JsValue.undefined

/-- The object literal `{ error: msg }`. -/
def errorBody (msg : String) : JsValue :=
  JsValue.obj [("error", JsValue.str msg)]

/-- The object literal `{ status: s, dependencies: { dataService: d } }`. -/
def healthBody (s d : String) : JsValue :=
  JsValue.obj [("status", JsValue.str s),
    ("dependencies", JsValue.obj [("dataService", JsValue.str d)])]

/-! ## Express response object -/

/-- The part of the Express response a handler writes: the status code, which
is 200 until `res.status` is called, and the value sent by `res.json`. -/
structure Res where
  statusCode : Nat := 200
  body : Option JsValue := none

/-- The call `res.status(code)`. -/
def Res.status (res : Res) (code : Nat) : Res :=
  { res with statusCode := code }

/-- The call `res.json(value)`. -/
def Res.json (res : Res) (value : JsValue) : Res :=
  { res with body := some value }

/-! ## axios -/

/-- HTTP methods used by the gateway. -/
inductive Method where
  | GET | POST | PUT | DELETE
  deriving DecidableEq, Repr

/-- One call `axios.get / post / put / delete (url, ...)`: `data` is the
request body argument of `post` and `put`, `params` the `params` object of the
options argument of `get`. -/
structure AxiosRequest where
  method : Method
  url : String
  data : Option JsValue := none
  params : Option (List (String × JsValue)) := none

/-- A response as axios exposes it: `response.status` and `response.data`. -/
structure AxiosResponse where
  status : Nat
  data : JsValue

/-- The error a rejected axios promise carries: `error.message` always,
`error.response` only when the data service answered. -/
structure AxiosError where
  message : String
  response : Option AxiosResponse := none

/-- The data service as seen through axios: each call either resolves with a
response or rejects with an error. -/
abbrev DataService := AxiosRequest → Except AxiosError AxiosResponse

/-- Query-string serialisation done by axios for the `params` object: entries
whose value is `undefined` or `null` are left out, the others are sent. -/
def sentParams (params : List (String × JsValue)) : List (String × JsValue) :=
  params.filter fun kv =>
    match kv.2 with
    | JsValue.undefined => false
    | JsValue.null => false
    | _ => true

/-- The values the query-string parser of Express puts in `req.query`:
strings, and arrays and nested objects that are not empty. -/
def JsValue.isQueryValue : JsValue → Bool
  | JsValue.str _ => true
  | JsValue.arr items => !items.isEmpty
  | JsValue.obj fields => !fields.isEmpty
  | _ => false

/-- The search parameters the caller supplied, in the words of the
specification: those of id, name, alias that occur in the query, each with the
value it has there. -/
def suppliedParams (query : List (String × JsValue)) : List (String × JsValue) :=
  ["id", "name", "alias"].filterMap fun k => (query.lookup k).map fun v => (k, v)

/-! ## Handlers -/

/-- What running a handler produced: the response, the downstream calls made,
and the `console.error` lines. -/
structure Outcome where
  res : Res
  calls : List AxiosRequest := []
  log : List String := []

/-- The `catch (error)` block shared, up to its two strings, by the five
customer handlers: log, then relay `error.response` when there is one, else
answer 500 with the fixed message of the operation. -/
def catchBlock (logAs failMsg : String) (calls : List AxiosRequest)
    (error : AxiosError) : Outcome :=
  let log := [logAs ++ " " ++ error.message]
  match error.response with
  | some response =>
      { res := (Res.status {} response.status).json response.data, calls := calls, log := log }
  | none =>
      { res := (Res.status {} 500).json (errorBody failMsg), calls := calls, log := log }

/-- The evaluation of `Date.parse(v)` on a JavaScript value: it returns a
number of milliseconds (`some t`) or `NaN` (`none`), or it throws, which it
does when the conversion of `v` to a string throws a `TypeError` (an object
whose own `toString` property is not a function); the error message is kept. -/
abbrev DateParse := JsValue → Except String (Option Int)

/-- The condition `dob && isNaN(Date.parse(dob))` of the update handler:
`Date.parse` is evaluated only when `dob` is truthy, and may throw. -/
def dobInvalid (dateParse : DateParse) (dob : JsValue) : Except String Bool :=
  if dob.truthy then
    match dateParse dob with
    | Except.error message => Except.error message
    | Except.ok parsed => Except.ok parsed.isNone
  else
    Except.ok false

/-- Handler of `GET /health`. -/
def getHealth (DATA_SERVICE_URL : String) (axios : DataService) : Outcome :=
  let call : AxiosRequest := { method := Method.GET, url := DATA_SERVICE_URL ++ "/health" }
  match axios call with
  | Except.ok dataServiceHealth =>
      if dataServiceHealth.status = 200 then
        { res := (Res.status {} 200).json (healthBody "healthy" "healthy"), calls := [call] }
      else
        { res := (Res.status {} 200).json (healthBody "degraded" "unhealthy"), calls := [call] }
  | Except.error _ =>
      { res := (Res.status {} 200).json (healthBody "degraded" "unavailable"), calls := [call] }

/-- Handler of `POST /api/customers`.  `dateParse v` is the evaluation of
`Date.parse(v)`; when it throws, the `catch` block of the handler runs with
the thrown error, which has no `response`. -/
def postCustomers (DATA_SERVICE_URL : String) (dateParse : DateParse)
    (axios : DataService) (body : List (String × JsValue)) : Outcome :=
  let name := getProp body "name"
  let alias_ := getProp body "alias"
  let dob := getProp body "dob"
  if !name.truthy || !alias_.truthy || !dob.truthy then
    { res := (Res.status {} 400).json (errorBody "Name, alias, and date of birth are required") }
  else
    match dateParse dob with
    | Except.error message =>
        catchBlock "Error creating customer:" "Failed to create customer" []
          { message := message }
    | Except.ok parsed =>
        if parsed.isNone then
          { res := (Res.status {} 400).json
              (errorBody "Date of birth must be in a valid date format") }
        else
          let call : AxiosRequest :=
            { method := Method.POST, url := DATA_SERVICE_URL ++ "/customers",
              data := some (JsValue.obj [("name", name), ("alias", alias_), ("dob", dob)]) }
          match axios call with
          | Except.ok response =>
              { res := (Res.status {} 201).json response.data, calls := [call] }
          | Except.error error =>
              catchBlock "Error creating customer:" "Failed to create customer" [call] error

/-- Handler of `GET /api/customers`. -/
def getCustomers (DATA_SERVICE_URL : String) (axios : DataService) : Outcome :=
  let call : AxiosRequest := { method := Method.GET, url := DATA_SERVICE_URL ++ "/customers" }
  match axios call with
  | Except.ok response =>
      { res := Res.json {} response.data, calls := [call] }
  | Except.error error =>
      catchBlock "Error retrieving customers:" "Failed to retrieve customers" [call] error

/-- Handler of `GET /api/customers/search`. -/
def getCustomersSearch (DATA_SERVICE_URL : String) (axios : DataService)
    (query : List (String × JsValue)) : Outcome :=
  let id := getProp query "id"
  let name := getProp query "name"
  let alias_ := getProp query "alias"
  if !id.truthy && !name.truthy && !alias_.truthy then
    { res := (Res.status {} 400).json
        (errorBody "At least one search parameter (id, name, or alias) is required") }
  else
    let call : AxiosRequest :=
      { method := Method.GET, url := DATA_SERVICE_URL ++ "/customers/search",
        params := some [("id", id), ("name", name), ("alias", alias_)] }
    match axios call with
    | Except.ok response =>
        { res := Res.json {} response.data, calls := [call] }
    | Except.error error =>
        catchBlock "Error searching for customer:" "Failed to search for customer" [call] error

/-- Handler of `PUT /api/customers/:id`. -/
def putCustomer (DATA_SERVICE_URL : String) (dateParse : DateParse)
    (axios : DataService) (id : String) (body : List (String × JsValue)) : Outcome :=
  let name := getProp body "name"
  let alias_ := getProp body "alias"
  let dob := getProp body "dob"
  if !name.truthy && !alias_.truthy && !dob.truthy then
    { res := (Res.status {} 400).json (errorBody "At least one field to update is required") }
  else
    match dobInvalid dateParse dob with
    | Except.error message =>
        catchBlock "Error updating customer:" "Failed to update customer" []
          { message := message }
    | Except.ok invalid =>
        if invalid then
          { res := (Res.status {} 400).json
              (errorBody "Date of birth must be in a valid date format") }
        else
          let call : AxiosRequest :=
            { method := Method.PUT, url := DATA_SERVICE_URL ++ "/customers/" ++ id,
              data := some (JsValue.obj [("name", name), ("alias", alias_), ("dob", dob)]) }
          match axios call with
          | Except.ok response =>
              { res := Res.json {} response.data, calls := [call] }
          | Except.error error =>
              catchBlock "Error updating customer:" "Failed to update customer" [call] error

/-- Handler of `DELETE /api/customers/:id`. -/
def deleteCustomer (DATA_SERVICE_URL : String) (axios : DataService) (id : String) : Outcome :=
  let call : AxiosRequest :=
    { method := Method.DELETE, url := DATA_SERVICE_URL ++ "/customers/" ++ id }
  match axios call with
  | Except.ok response =>
      { res := Res.json {} response.data, calls := [call] }
  | Except.error error =>
      catchBlock "Error deleting customer:" "Failed to delete customer" [call] error

/-! ## Routing -/

/-- An inbound request, already matched against the routes of the
application: the body of `POST` and `PUT` is the object parsed by the JSON
body parser, the query is the object built by the query-string parser, `id` is
the path parameter. -/
inductive Request where
  | health : Request
  | create (body : List (String × JsValue)) : Request
  | list : Request
  | search (query : List (String × JsValue)) : Request
  | update (id : String) (body : List (String × JsValue)) : Request
  | delete (id : String) : Request

/-- The five customer operations, that is every route but `/health`. -/
def Request.isCustomerOp : Request → Bool
  | Request.health => false
  | _ => true

/-- The four customer operations other than create. -/
def Request.isRelayOp : Request → Bool
  | Request.health => false
  | Request.create _ => false
  | _ => true

/-- The application: dispatch of a request to its handler. -/
def app (DATA_SERVICE_URL : String) (dateParse : DateParse)
    (axios : DataService) : Request → Outcome
  | Request.health => getHealth DATA_SERVICE_URL axios
  | Request.create body => postCustomers DATA_SERVICE_URL dateParse axios body
  | Request.list => getCustomers DATA_SERVICE_URL axios
  | Request.search query => getCustomersSearch DATA_SERVICE_URL axios query
  | Request.update id body => putCustomer DATA_SERVICE_URL dateParse axios id body
  | Request.delete id => deleteCustomer DATA_SERVICE_URL axios id

/-- The fixed message of the 500 answer of each customer operation. -/
def failureMessage : Request → String
  | Request.health => ""
  | Request.create _ => "Failed to create customer"
  | Request.list => "Failed to retrieve customers"
  | Request.search _ => "Failed to search for customer"
  | Request.update _ _ => "Failed to update customer"
  | Request.delete _ => "Failed to delete customer"

/-! ## Sample collaborators used in examples -/

/-- The default of `DATA_SERVICE_URL` when the environment does not set it. -/
def defaultDataServiceUrl : String := "http://localhost:3002"

/-- A date parser that agrees with `Date.parse` on the values used in the
examples: `"1990-01-01"` is midnight UTC of that day in milliseconds, the
empty string and `"not-a-date"` are `NaN`, and an object with an own
`toString` property (which JSON cannot make a function) throws. -/
def sampleDateParse : DateParse
  | JsValue.str s => Except.ok (if s = "1990-01-01" then some 631152000000 else none)
  | JsValue.obj fields =>
      if (fields.lookup "toString").isSome then
        Except.error "Cannot convert object to primitive value"
      else Except.ok none
  | _ => Except.ok none

/-- A data service that answers every call with the given status and body. -/
def answering (status : Nat) (data : JsValue) : DataService :=
  fun _ => Except.ok { status := status, data := data }

/-- A data service that rejects every call with the given status and body
(axios does so for statuses outside 2xx). -/
def rejecting (status : Nat) (data : JsValue) : DataService :=
  fun _ => Except.error
    { message := "Request failed with status code " ++ toString status,
      response := some { status := status, data := data } }

/-- A data service that cannot be reached: every call rejects without a
response. -/
def unreachableService (message : String) : DataService :=
  fun _ => Except.error { message := message, response := none }

/-- The customer of the examples. -/
def alice : JsValue :=
  JsValue.obj [("id", JsValue.num 1), ("name", JsValue.str "Alice"),
    ("alias", JsValue.str "A"), ("dob", JsValue.str "1990-01-01")]

/-- A body whose dob is the text of the example of an unparseable date. -/
def notADateBody : List (String × JsValue) :=
  [("name", JsValue.str "Alice"), ("alias", JsValue.str "A"), ("dob", JsValue.str "not-a-date")]

/-- An update body that names the customer and carries an empty dob. -/
def emptyDobBody : List (String × JsValue) :=
  [("name", JsValue.str "Bob"), ("dob", JsValue.str "")]

/-- A body whose dob cannot be converted to a string. -/
def throwingDobBody : List (String × JsValue) :=
  [("name", JsValue.str "Alice"), ("alias", JsValue.str "A"),
    ("dob", JsValue.obj [("toString", JsValue.num 1)])]

/-- A valid creation body. -/
def aliceBody : List (String × JsValue) :=
  [("name", JsValue.str "Alice"), ("alias", JsValue.str "A"), ("dob", JsValue.str "1990-01-01")]

/-- The update of customer 7 used in the examples. -/
def updateSeven : Request :=
  Request.update "7" [("name", JsValue.str "Bob")]

/-- The call that `updateSeven` makes with the default base address. -/
def updateSevenCall : AxiosRequest :=
  { method := Method.PUT, url := "http://localhost:3002/customers/7",
    data := some (JsValue.obj [("name", JsValue.str "Bob"),
      ("alias", JsValue.undefined), ("dob", JsValue.undefined)]) }

/-! ## Basic facts about values -/

theorem truthy_eq_false_of_missingOrEmpty {v : JsValue} (h : v.missingOrEmpty = true) :
    v.truthy = false := by
  cases v <;> simp_all [JsValue.missingOrEmpty, JsValue.isMissing, JsValue.isEmptyText,
    JsValue.truthy]

theorem isPresent_of_truthy {v : JsValue} (h : v.truthy = true) : v.isPresent = true := by
  cases v <;> simp_all [JsValue.isPresent, JsValue.isMissing, JsValue.truthy]

theorem dobInvalid_of_falsy (dateParse : DateParse) {dob : JsValue}
    (h : dob.truthy = false) : dobInvalid dateParse dob = Except.ok false := by
  simp [dobInvalid, h]

theorem dobInvalid_of_parsed (dateParse : DateParse) {dob : JsValue} {t : Int}
    (h : dateParse dob = Except.ok (some t)) : dobInvalid dateParse dob = Except.ok false := by
  unfold dobInvalid
  split
  · simp [h]
  · rfl

theorem dobInvalid_of_nan (dateParse : DateParse) {dob : JsValue}
    (ht : dob.truthy = true) (h : dateParse dob = Except.ok none) :
    dobInvalid dateParse dob = Except.ok true := by
  simp [dobInvalid, ht, h]

/-! ## Facts about the shared catch block -/

theorem catchBlock_calls (logAs failMsg : String) (calls : List AxiosRequest)
    (error : AxiosError) : (catchBlock logAs failMsg calls error).calls = calls := by
  unfold catchBlock
  split <;> rfl

theorem catchBlock_res_of_response (logAs failMsg msg : String) (calls : List AxiosRequest)
    (s : Nat) (b : JsValue) :
    (catchBlock logAs failMsg calls
        { message := msg, response := some { status := s, data := b } }).res =
      { statusCode := s, body := some b } := rfl

theorem catchBlock_res_of_no_response (logAs failMsg msg : String)
    (calls : List AxiosRequest) :
    (catchBlock logAs failMsg calls { message := msg, response := none }).res =
      { statusCode := 500, body := some (errorBody failMsg) } := rfl

/-- The answer of a customer handler when its call is rejected. -/
theorem app_res_of_rejected (url : String) (dateParse : DateParse)
    (axios : DataService) (req : Request) (call : AxiosRequest) (error : AxiosError)
    (hop : req.isCustomerOp = true)
    (hcall : call ∈ (app url dateParse axios req).calls)
    (hfail : axios call = Except.error error) :
    (app url dateParse axios req).res =
      (catchBlock "" (failureMessage req) [] error).res := by
  cases req with
  | health => simp [Request.isCustomerOp] at hop
  | create body =>
    by_cases h1 : (!(getProp body "name").truthy || !(getProp body "alias").truthy
        || !(getProp body "dob").truthy) = true
    · simp only [app, postCustomers, if_pos h1, List.not_mem_nil] at hcall
    · simp only [app, postCustomers, if_neg h1] at hcall ⊢
      cases hdp : dateParse (getProp body "dob") with
      | error m => simp only [hdp, catchBlock_calls, List.not_mem_nil] at hcall
      | ok parsed =>
        simp only [hdp] at hcall ⊢
        by_cases h2 : parsed.isNone = true
        · simp only [if_pos h2, List.not_mem_nil] at hcall
        · simp only [if_neg h2] at hcall ⊢
          split at hcall
          · rename_i response hax
            have hc := List.mem_singleton.mp hcall
            subst hc
            rw [hax] at hfail
            cases hfail
          · rename_i e hax
            have hc := List.mem_singleton.mp (catchBlock_calls _ _ _ _ ▸ hcall)
            subst hc
            rw [hax] at hfail
            cases hfail
            simp only [hax, catchBlock, failureMessage]
            split <;> rfl
  | list =>
    simp only [app, getCustomers] at hcall ⊢
    split at hcall
    · rename_i response hax
      have hc := List.mem_singleton.mp hcall
      subst hc
      rw [hax] at hfail
      cases hfail
    · rename_i e hax
      have hc := List.mem_singleton.mp (catchBlock_calls _ _ _ _ ▸ hcall)
      subst hc
      rw [hax] at hfail
      cases hfail
      simp only [hax, catchBlock, failureMessage]
      split <;> rfl
  | search query =>
    by_cases h1 : (!(getProp query "id").truthy && !(getProp query "name").truthy
        && !(getProp query "alias").truthy) = true
    · simp only [app, getCustomersSearch, if_pos h1, List.not_mem_nil] at hcall
    · simp only [app, getCustomersSearch, if_neg h1] at hcall ⊢
      split at hcall
      · rename_i response hax
        have hc := List.mem_singleton.mp hcall
        subst hc
        rw [hax] at hfail
        cases hfail
      · rename_i e hax
        have hc := List.mem_singleton.mp (catchBlock_calls _ _ _ _ ▸ hcall)
        subst hc
        rw [hax] at hfail
        cases hfail
        simp only [hax, catchBlock, failureMessage]
        split <;> rfl
  | update id body =>
    by_cases h1 : (!(getProp body "name").truthy && !(getProp body "alias").truthy
        && !(getProp body "dob").truthy) = true
    · simp only [app, putCustomer, if_pos h1, List.not_mem_nil] at hcall
    · simp only [app, putCustomer, if_neg h1] at hcall ⊢
      cases hdp : dobInvalid dateParse (getProp body "dob") with
      | error m => simp only [hdp, catchBlock_calls, List.not_mem_nil] at hcall
      | ok invalid =>
        simp only [hdp] at hcall ⊢
        cases invalid with
        | true => simp only [if_true, List.not_mem_nil] at hcall
        | false =>
          simp only [Bool.false_eq_true, if_false] at hcall ⊢
          split at hcall
          · rename_i response hax
            have hc := List.mem_singleton.mp hcall
            subst hc
            rw [hax] at hfail
            cases hfail
          · rename_i e hax
            have hc := List.mem_singleton.mp (catchBlock_calls _ _ _ _ ▸ hcall)
            subst hc
            rw [hax] at hfail
            cases hfail
            simp only [hax, catchBlock, failureMessage]
            split <;> rfl
  | delete id =>
    simp only [app, deleteCustomer] at hcall ⊢
    split at hcall
    · rename_i response hax
      have hc := List.mem_singleton.mp hcall
      subst hc
      rw [hax] at hfail
      cases hfail
    · rename_i e hax
      have hc := List.mem_singleton.mp (catchBlock_calls _ _ _ _ ▸ hcall)
      subst hc
      rw [hax] at hfail
      cases hfail
      simp only [hax, catchBlock, failureMessage]
      split <;> rfl

/-- The answer of a list, search, update or delete handler when its call
resolves: the default status 200 and the body of the data service. -/
theorem app_res_of_resolved (url : String) (dateParse : DateParse)
    (axios : DataService) (req : Request) (call : AxiosRequest) (response : AxiosResponse)
    (hop : req.isRelayOp = true)
    (hcall : call ∈ (app url dateParse axios req).calls)
    (hok : axios call = Except.ok response) :
    (app url dateParse axios req).res = { statusCode := 200, body := some response.data } := by
  cases req with
  | health => simp [Request.isRelayOp] at hop
  | create body => simp [Request.isRelayOp] at hop
  | list =>
    simp only [app, getCustomers] at hcall ⊢
    split at hcall
    · rename_i r hax
      have hc := List.mem_singleton.mp hcall
      subst hc
      rw [hax] at hok
      cases hok
      simp only [hax, Res.json]
    · rename_i e hax
      have hc := List.mem_singleton.mp (catchBlock_calls _ _ _ _ ▸ hcall)
      subst hc
      rw [hax] at hok
      cases hok
  | search query =>
    by_cases h1 : (!(getProp query "id").truthy && !(getProp query "name").truthy
        && !(getProp query "alias").truthy) = true
    · simp only [app, getCustomersSearch, if_pos h1, List.not_mem_nil] at hcall
    · simp only [app, getCustomersSearch, if_neg h1] at hcall ⊢
      split at hcall
      · rename_i r hax
        have hc := List.mem_singleton.mp hcall
        subst hc
        rw [hax] at hok
        cases hok
        simp only [hax, Res.json]
      · rename_i e hax
        have hc := List.mem_singleton.mp (catchBlock_calls _ _ _ _ ▸ hcall)
        subst hc
        rw [hax] at hok
        cases hok
  | update id body =>
    by_cases h1 : (!(getProp body "name").truthy && !(getProp body "alias").truthy
        && !(getProp body "dob").truthy) = true
    · simp only [app, putCustomer, if_pos h1, List.not_mem_nil] at hcall
    · simp only [app, putCustomer, if_neg h1] at hcall ⊢
      cases hdp : dobInvalid dateParse (getProp body "dob") with
      | error m => simp only [hdp, catchBlock_calls, List.not_mem_nil] at hcall
      | ok invalid =>
        simp only [hdp] at hcall ⊢
        cases invalid with
        | true => simp only [if_true, List.not_mem_nil] at hcall
        | false =>
          simp only [Bool.false_eq_true, if_false] at hcall ⊢
          split at hcall
          · rename_i r hax
            have hc := List.mem_singleton.mp hcall
            subst hc
            rw [hax] at hok
            cases hok
            simp only [hax, Res.json]
          · rename_i e hax
            have hc := List.mem_singleton.mp (catchBlock_calls _ _ _ _ ▸ hcall)
            subst hc
            rw [hax] at hok
            cases hok
  | delete id =>
    simp only [app, deleteCustomer] at hcall ⊢
    split at hcall
    · rename_i r hax
      have hc := List.mem_singleton.mp hcall
      subst hc
      rw [hax] at hok
      cases hok
      simp only [hax, Res.json]
    · rename_i e hax
      have hc := List.mem_singleton.mp (catchBlock_calls _ _ _ _ ▸ hcall)
      subst hc
      rw [hax] at hok
      cases hok

/-! ## Creation -/

/-- C1: a create request in which one of name, alias, dob is missing or empty
is answered 400 with the message that the three fields are required, and no
call to the data service is made; nothing is assumed about the date, so the
answer is the same when dob is also not a parseable date. -/
theorem create_missing_or_empty_rejected (url : String) (dateParse : DateParse)
    (axios : DataService) (body : List (String × JsValue))
    (h : ((getProp body "name").missingOrEmpty || (getProp body "alias").missingOrEmpty
      || (getProp body "dob").missingOrEmpty) = true) :
    (postCustomers url dateParse axios body).res =
        { statusCode := 400,
          body := some (errorBody "Name, alias, and date of birth are required") }
      ∧ (postCustomers url dateParse axios body).calls = [] := by
  have hf : (!(getProp body "name").truthy || !(getProp body "alias").truthy
      || !(getProp body "dob").truthy) = true := by
    simp only [Bool.or_eq_true] at h ⊢
    rcases h with (h | h) | h
    · simp [truthy_eq_false_of_missingOrEmpty h]
    · simp [truthy_eq_false_of_missingOrEmpty h]
    · simp [truthy_eq_false_of_missingOrEmpty h]
  simp only [postCustomers, hf, if_true, Res.status, Res.json, and_self]

/-- Witness for C1: a body without dob, with a reachable data service. -/
theorem create_missing_or_empty_rejected_witness :
    (postCustomers defaultDataServiceUrl sampleDateParse (answering 201 alice)
        [("name", JsValue.str "Alice"), ("alias", JsValue.str "")]).res =
        { statusCode := 400,
          body := some (errorBody "Name, alias, and date of birth are required") }
      ∧ (postCustomers defaultDataServiceUrl sampleDateParse (answering 201 alice)
        [("name", JsValue.str "Alice"), ("alias", JsValue.str "")]).calls = [] :=
  create_missing_or_empty_rejected defaultDataServiceUrl sampleDateParse (answering 201 alice)
    [("name", JsValue.str "Alice"), ("alias", JsValue.str "")] (by decide)

/-! ## Date validation -/

/-- C2, as stated, fails for updates: with name "Bob" and an empty dob, the dob
is present and does not parse (`Date.parse` gives `NaN`), yet the update is
not answered 400: it is forwarded and the answer of the data service is
relayed with status 200. -/
theorem update_empty_dob_not_rejected :
    (getProp emptyDobBody "dob").isPresent = true
      ∧ sampleDateParse (getProp emptyDobBody "dob") = Except.ok none
      ∧ (putCustomer defaultDataServiceUrl sampleDateParse (answering 200 alice) "7"
          emptyDobBody).res.statusCode = 200
      ∧ (putCustomer defaultDataServiceUrl sampleDateParse (answering 200 alice) "7"
          emptyDobBody).calls =
        [{ method := Method.PUT, url := "http://localhost:3002/customers/7",
           data := some (JsValue.obj [("name", JsValue.str "Bob"),
             ("alias", JsValue.undefined), ("dob", JsValue.str "")]) }] := by
  refine ⟨by decide, rfl, ?_, ?_⟩ <;>
    simp [putCustomer, emptyDobBody, getProp, List.lookup, JsValue.truthy, answering,
      dobInvalid, defaultDataServiceUrl, Res.json]

/-- C2, amended: when `Date.parse(dob)` evaluates to `NaN`, a create request in
which dob is present, and an update request in which dob is truthy (present
and not null, false, 0 or the empty string), is answered 400 without any call
to the data service; the body is the date-format message for the update, and
for the create when the presence check on the three fields passes.  A dob on
which `Date.parse` throws is outside this statement. -/
theorem invalid_dob_rejected (url : String) (dateParse : DateParse)
    (axios : DataService) (id : String) (body : List (String × JsValue))
    (hNaN : dateParse (getProp body "dob") = Except.ok none) :
    ((getProp body "dob").isPresent = true →
        (postCustomers url dateParse axios body).res.statusCode = 400
        ∧ (postCustomers url dateParse axios body).calls = []
        ∧ (((getProp body "name").truthy && (getProp body "alias").truthy
              && (getProp body "dob").truthy) = true →
            (postCustomers url dateParse axios body).res.body =
              some (errorBody "Date of birth must be in a valid date format")))
      ∧ ((getProp body "dob").truthy = true →
        (putCustomer url dateParse axios id body).res =
            { statusCode := 400,
              body := some (errorBody "Date of birth must be in a valid date format") }
        ∧ (putCustomer url dateParse axios id body).calls = []) := by
  constructor
  · intro _
    by_cases hf : (!(getProp body "name").truthy || !(getProp body "alias").truthy
        || !(getProp body "dob").truthy) = true
    · refine ⟨?_, ?_, ?_⟩
      · simp only [postCustomers, if_pos hf, Res.status, Res.json]
      · simp only [postCustomers, if_pos hf]
      · intro ht
        simp only [Bool.and_eq_true] at ht
        simp [ht.1.1, ht.1.2, ht.2] at hf
    · simp only [postCustomers, if_neg hf, hNaN, Option.isNone_none, if_true, Res.status,
        Res.json]
      simp
  · intro hd
    have h1 : ¬ ((!(getProp body "name").truthy && !(getProp body "alias").truthy
        && !(getProp body "dob").truthy) = true) := by
      simp [hd]
    simp only [putCustomer, if_neg h1, dobInvalid_of_nan dateParse hd hNaN, if_true,
      Res.status, Res.json, and_self]

/-- Witness for C2: name "Alice", alias "A" and dob "not-a-date". -/
theorem invalid_dob_rejected_witness :
    (postCustomers defaultDataServiceUrl sampleDateParse (answering 201 alice)
        notADateBody).res.statusCode = 400
      ∧ (putCustomer defaultDataServiceUrl sampleDateParse (answering 200 alice) "7"
        notADateBody).res =
          { statusCode := 400,
            body := some (errorBody "Date of birth must be in a valid date format") } :=
  have h := invalid_dob_rejected defaultDataServiceUrl sampleDateParse (answering 201 alice)
    "7" notADateBody rfl
  ⟨(h.1 (by decide)).1,
    ((invalid_dob_rejected defaultDataServiceUrl sampleDateParse (answering 200 alice)
      "7" notADateBody rfl).2 (by decide)).1⟩

/-- The path left out of C2: on a truthy dob whose conversion to a string
throws, the create and the update handler end in their catch block, which
answers 500 with the fixed message of the operation, without any call. -/
theorem throwing_dob_answered_500 (url : String) (dateParse : DateParse)
    (axios : DataService) (id : String) (body : List (String × JsValue)) (message : String)
    (hn : (getProp body "name").truthy = true) (ha : (getProp body "alias").truthy = true)
    (hd : (getProp body "dob").truthy = true)
    (hthrow : dateParse (getProp body "dob") = Except.error message) :
    ((postCustomers url dateParse axios body).res =
          { statusCode := 500, body := some (errorBody "Failed to create customer") }
        ∧ (postCustomers url dateParse axios body).calls = [])
      ∧ ((putCustomer url dateParse axios id body).res =
          { statusCode := 500, body := some (errorBody "Failed to update customer") }
        ∧ (putCustomer url dateParse axios id body).calls = []) := by
  have h1 : ¬ ((!(getProp body "name").truthy || !(getProp body "alias").truthy
      || !(getProp body "dob").truthy) = true) := by
    simp [hn, ha, hd]
  have h2 : ¬ ((!(getProp body "name").truthy && !(getProp body "alias").truthy
      && !(getProp body "dob").truthy) = true) := by
    simp [hd]
  have h3 : dobInvalid dateParse (getProp body "dob") = Except.error message := by
    simp [dobInvalid, hd, hthrow]
  constructor
  · simp only [postCustomers, if_neg h1, hthrow]
    exact ⟨rfl, rfl⟩
  · simp only [putCustomer, if_neg h2, h3]
    exact ⟨rfl, rfl⟩

/-- The same at the sample body whose dob is an object with an own `toString`
property. -/
theorem throwing_dob_answered_500_sample :
    (postCustomers defaultDataServiceUrl sampleDateParse (answering 201 alice)
        throwingDobBody).res =
      { statusCode := 500, body := some (errorBody "Failed to create customer") } :=
  (throwing_dob_answered_500 defaultDataServiceUrl sampleDateParse (answering 201 alice) "7"
    throwingDobBody "Cannot convert object to primitive value" (by decide) (by decide)
    (by decide) rfl).1.1

/-! ## Forwarding of a valid creation -/

/-- C3: a create request that passes validation (name, alias and dob truthy,
`Date.parse(dob)` a number) makes exactly one call, a POST to the creation endpoint with
the object of the three fields as received; and whenever that call resolves,
with any status s and body b, the answer has status 201 and body b. -/
theorem create_forwards_and_answers_201 (url : String) (dateParse : DateParse)
    (axios : DataService) (body : List (String × JsValue))
    (hn : (getProp body "name").truthy = true) (ha : (getProp body "alias").truthy = true)
    (hd : (getProp body "dob").truthy = true) (t : Int)
    (hp : dateParse (getProp body "dob") = Except.ok (some t)) :
    (postCustomers url dateParse axios body).calls =
        [{ method := Method.POST, url := url ++ "/customers",
           data := some (JsValue.obj [("name", getProp body "name"),
             ("alias", getProp body "alias"), ("dob", getProp body "dob")]) }]
      ∧ ∀ (s : Nat) (b : JsValue),
          axios { method := Method.POST, url := url ++ "/customers",
                  data := some (JsValue.obj [("name", getProp body "name"),
                    ("alias", getProp body "alias"), ("dob", getProp body "dob")]) }
            = Except.ok { status := s, data := b } →
          (postCustomers url dateParse axios body).res = { statusCode := 201, body := some b } := by
  constructor
  · simp only [postCustomers, hn, ha, hd, hp, Option.isNone_some, Bool.not_true, Bool.or_self,
      Bool.false_eq_true, if_false]
    cases axios _ with
    | ok response => rfl
    | error error => simp only [catchBlock]; split <;> rfl
  · intro s b hax
    simp only [postCustomers, hn, ha, hd, hp, Option.isNone_some, Bool.not_true, Bool.or_self,
      Bool.false_eq_true, if_false, hax, Res.status, Res.json]

/-- Witness for C3: the data service answers 201 with the customer of the
example; the gateway answers 201 with that body. -/
theorem create_forwards_and_answers_201_witness :
    (postCustomers defaultDataServiceUrl sampleDateParse (answering 201 alice) aliceBody).res =
      { statusCode := 201, body := some alice } :=
  (create_forwards_and_answers_201 defaultDataServiceUrl sampleDateParse (answering 201 alice)
    aliceBody (by decide) (by decide) (by decide) 631152000000 rfl).2 201 alice rfl

/-! ## Failures of the data service -/

theorem updateSevenCall_mem (axios : DataService) :
    updateSevenCall ∈ (app defaultDataServiceUrl sampleDateParse axios updateSeven).calls := by
  have h1 : ¬ ((!(getProp [("name", JsValue.str "Bob")] "name").truthy
      && !(getProp [("name", JsValue.str "Bob")] "alias").truthy
      && !(getProp [("name", JsValue.str "Bob")] "dob").truthy) = true) := by decide
  have h2 : dobInvalid sampleDateParse (getProp [("name", JsValue.str "Bob")] "dob")
      = Except.ok false := rfl
  simp only [app, updateSeven, putCustomer, if_neg h1, h2, Bool.false_eq_true, if_false]
  have hu : defaultDataServiceUrl ++ "/customers/" ++ "7" = "http://localhost:3002/customers/7" := by
    decide
  rw [hu]
  split
  · exact List.mem_singleton.mpr rfl
  · rw [catchBlock_calls]
    exact List.mem_singleton.mpr rfl

/-- C4: for each of the five customer handlers, when the call it made to the
data service is rejected with a structured response of status s and body b,
the answer has exactly status s and body b. -/
theorem structured_failure_relayed (url : String) (dateParse : DateParse)
    (axios : DataService) (req : Request) (call : AxiosRequest) (msg : String)
    (s : Nat) (b : JsValue)
    (hop : req.isCustomerOp = true)
    (hcall : call ∈ (app url dateParse axios req).calls)
    (hfail : axios call =
      Except.error { message := msg, response := some { status := s, data := b } }) :
    (app url dateParse axios req).res = { statusCode := s, body := some b } := by
  rw [app_res_of_rejected url dateParse axios req call _ hop hcall hfail]
  rfl

/-- Witness for C4: the data service answers 404 to the update of customer 7;
the gateway answers 404 with the same body. -/
theorem structured_failure_relayed_witness :
    (app defaultDataServiceUrl sampleDateParse (rejecting 404 (errorBody "not found"))
        updateSeven).res =
      { statusCode := 404, body := some (errorBody "not found") } :=
  structured_failure_relayed defaultDataServiceUrl sampleDateParse
    (rejecting 404 (errorBody "not found")) updateSeven updateSevenCall
    ("Request failed with status code " ++ toString 404) 404 (errorBody "not found") rfl
    (updateSevenCall_mem _) rfl

/-- C5: for each of the five customer handlers, when the call it made is
rejected without a structured response, the answer is status 500 with the
fixed message of the operation; hence two such failures of the same request,
whatever their messages, get the same answer. -/
theorem unstructured_failure_generic_500 (url : String) (dateParse : DateParse)
    (axios axios2 : DataService) (req : Request) (call call2 : AxiosRequest)
    (msg msg2 : String)
    (hop : req.isCustomerOp = true)
    (hcall : call ∈ (app url dateParse axios req).calls)
    (hfail : axios call = Except.error { message := msg, response := none })
    (hcall2 : call2 ∈ (app url dateParse axios2 req).calls)
    (hfail2 : axios2 call2 = Except.error { message := msg2, response := none }) :
    (app url dateParse axios req).res =
        { statusCode := 500, body := some (errorBody (failureMessage req)) }
      ∧ (app url dateParse axios2 req).res = (app url dateParse axios req).res := by
  rw [app_res_of_rejected url dateParse axios req call _ hop hcall hfail,
    app_res_of_rejected url dateParse axios2 req call2 _ hop hcall2 hfail2]
  exact ⟨rfl, rfl⟩

/-- Witness for C5: a refused connection and a timeout on the update of
customer 7 both give 500 with the message of the update operation. -/
theorem unstructured_failure_generic_500_witness :
    (app defaultDataServiceUrl sampleDateParse
        (unreachableService "connect ECONNREFUSED 127.0.0.1:3002") updateSeven).res =
        { statusCode := 500, body := some (errorBody "Failed to update customer") }
      ∧ (app defaultDataServiceUrl sampleDateParse
        (unreachableService "timeout of 1000ms exceeded") updateSeven).res =
        (app defaultDataServiceUrl sampleDateParse
          (unreachableService "connect ECONNREFUSED 127.0.0.1:3002") updateSeven).res :=
  unstructured_failure_generic_500 defaultDataServiceUrl sampleDateParse
    (unreachableService "connect ECONNREFUSED 127.0.0.1:3002")
    (unreachableService "timeout of 1000ms exceeded") updateSeven updateSevenCall
    updateSevenCall "connect ECONNREFUSED 127.0.0.1:3002" "timeout of 1000ms exceeded" rfl
    (updateSevenCall_mem _) rfl (updateSevenCall_mem _) rfl

/-! ## Relay of successful answers -/

/-- C6, as stated, fails: when the data service answers a delete with status
204, the call resolves with status 204 but the gateway answers 200. -/
theorem delete_204_answered_200 :
    (answering 204 (JsValue.str ""))
        { method := Method.DELETE, url := "http://localhost:3002/customers/7" } =
        Except.ok { status := 204, data := JsValue.str "" }
      ∧ (app defaultDataServiceUrl sampleDateParse (answering 204 (JsValue.str ""))
          (Request.delete "7")).res = { statusCode := 200, body := some (JsValue.str "") }
      ∧ (app defaultDataServiceUrl sampleDateParse (answering 204 (JsValue.str ""))
          (Request.delete "7")).res.statusCode ≠ 204 := by
  refine ⟨rfl, rfl, by decide⟩

/-- C6, amended: for the list, search, update and delete handlers, when the
call made to the data service resolves with status s and body b, the answer
has body b and status 200, whatever s is. -/
theorem success_body_relayed_status_200 (url : String) (dateParse : DateParse)
    (axios : DataService) (req : Request) (call : AxiosRequest) (s : Nat) (b : JsValue)
    (hop : req.isRelayOp = true)
    (hcall : call ∈ (app url dateParse axios req).calls)
    (hok : axios call = Except.ok { status := s, data := b }) :
    (app url dateParse axios req).res = { statusCode := 200, body := some b } :=
  app_res_of_resolved url dateParse axios req call { status := s, data := b } hop hcall hok

/-- Witness for C6: the update of customer 7 resolves with status 202. -/
theorem success_body_relayed_status_200_witness :
    (app defaultDataServiceUrl sampleDateParse (answering 202 alice) updateSeven).res =
      { statusCode := 200, body := some alice } :=
  success_body_relayed_status_200 defaultDataServiceUrl sampleDateParse (answering 202 alice)
    updateSeven updateSevenCall 202 alice rfl (updateSevenCall_mem _) rfl

/-! ## Search -/

/-- C7, as stated, fails: in the search `?name=` the parameter name is present
(its value is the empty string), yet the request is answered 400 with the
message that a search parameter is required, and no call is made. -/
theorem search_empty_name_rejected :
    (getProp [("name", JsValue.str "")] "name").isPresent = true
      ∧ (getCustomersSearch defaultDataServiceUrl (answering 200 alice)
          [("name", JsValue.str "")]).res =
        { statusCode := 400,
          body := some (errorBody
            "At least one search parameter (id, name, or alias) is required") }
      ∧ (getCustomersSearch defaultDataServiceUrl (answering 200 alice)
          [("name", JsValue.str "")]).calls = [] := by
  refine ⟨by decide, ?_, ?_⟩ <;>
    simp [getCustomersSearch, getProp, List.lookup, JsValue.truthy, Res.status, Res.json]

/-- C7, amended: a search request is answered 400 with the message that a
search parameter is required, without any call, exactly when none of id, name,
alias has a truthy value (each is absent or the empty string); every search
request in which one of them is truthy makes exactly one call, a GET to the
search endpoint. -/
theorem search_rejected_iff_no_truthy_param (url : String) (axios : DataService)
    (query : List (String × JsValue)) :
    (((getCustomersSearch url axios query).res =
          { statusCode := 400,
            body := some (errorBody
              "At least one search parameter (id, name, or alias) is required") }
        ∧ (getCustomersSearch url axios query).calls = [])
      ↔ ((getProp query "id").truthy || (getProp query "name").truthy
          || (getProp query "alias").truthy) = false)
    ∧ (((getProp query "id").truthy || (getProp query "name").truthy
          || (getProp query "alias").truthy) = true →
        (getCustomersSearch url axios query).calls =
          [{ method := Method.GET, url := url ++ "/customers/search",
             params := some [("id", getProp query "id"), ("name", getProp query "name"),
               ("alias", getProp query "alias")] }]) := by
  have hcalls : ((getProp query "id").truthy || (getProp query "name").truthy
        || (getProp query "alias").truthy) = true →
      (getCustomersSearch url axios query).calls =
        [{ method := Method.GET, url := url ++ "/customers/search",
           params := some [("id", getProp query "id"), ("name", getProp query "name"),
             ("alias", getProp query "alias")] }] := by
    intro ht
    have h1 : ¬ ((!(getProp query "id").truthy && !(getProp query "name").truthy
        && !(getProp query "alias").truthy) = true) := by
      revert ht
      cases (getProp query "id").truthy <;> cases (getProp query "name").truthy <;>
        cases (getProp query "alias").truthy <;> decide
    simp only [getCustomersSearch, if_neg h1]
    split
    · rfl
    · exact catchBlock_calls _ _ _ _
  refine ⟨⟨?_, ?_⟩, hcalls⟩
  · rintro ⟨_, hc⟩
    cases ht : ((getProp query "id").truthy || (getProp query "name").truthy
        || (getProp query "alias").truthy)
    · rfl
    · rw [hcalls ht] at hc
      cases hc
  · intro hf
    have h1 : (!(getProp query "id").truthy && !(getProp query "name").truthy
        && !(getProp query "alias").truthy) = true := by
      revert hf
      cases (getProp query "id").truthy <;> cases (getProp query "name").truthy <;>
        cases (getProp query "alias").truthy <;> decide
    simp only [getCustomersSearch, if_pos h1, Res.status, Res.json, and_self]

/-- Witness for C7: a search by alias alone is forwarded. -/
theorem search_rejected_iff_no_truthy_param_witness :
    (getCustomersSearch defaultDataServiceUrl (answering 200 alice)
        [("alias", JsValue.str "A")]).calls =
      [{ method := Method.GET, url := defaultDataServiceUrl ++ "/customers/search",
         params := some [("id", JsValue.undefined), ("name", JsValue.undefined),
           ("alias", JsValue.str "A")] }] :=
  (search_rejected_iff_no_truthy_param defaultDataServiceUrl (answering 200 alice)
    [("alias", JsValue.str "A")]).2 (by decide)

theorem mem_of_lookup_eq_some {k : String} {v : JsValue} :
    ∀ {l : List (String × JsValue)}, l.lookup k = some v → ∃ k2, (k2, v) ∈ l
  | [], h => by simp [List.lookup] at h
  | (k1, v1) :: l, h => by
    simp only [List.lookup] at h
    split at h
    · cases h
      exact ⟨k1, List.mem_cons_self _ _⟩
    · obtain ⟨k2, hk2⟩ := mem_of_lookup_eq_some h
      exact ⟨k2, List.mem_cons_of_mem _ hk2⟩

/-- One parameter of the `params` object is sent exactly when the query has
it. -/
theorem sentParams_singleton (query : List (String × JsValue))
    (hq : ∀ kv ∈ query, kv.2.isQueryValue = true) (k : String) :
    sentParams [(k, getProp query k)] =
      (match query.lookup k with
        | some v => [(k, v)]
        | none => []) := by
  cases hl : query.lookup k with
  | none => simp [sentParams, getProp, hl]
  | some v =>
    obtain ⟨k2, hk2⟩ := mem_of_lookup_eq_some hl
    have hv := hq (k2, v) hk2
    cases v <;> simp_all [sentParams, getProp, JsValue.isQueryValue]

/-- C8: for a search request that passes validation (query values being
strings, arrays or objects, as the query parser produces them), the one call
made carries the params object of id, name, alias as read from the query, and
what axios sends of it is exactly the parameters the caller supplied, each
with its value: absent ones are left out. -/
theorem search_forwards_supplied_params (url : String) (axios : DataService)
    (query : List (String × JsValue))
    (hq : ∀ kv ∈ query, kv.2.isQueryValue = true)
    (hv : ((getProp query "id").truthy || (getProp query "name").truthy
      || (getProp query "alias").truthy) = true) :
    (getCustomersSearch url axios query).calls =
        [{ method := Method.GET, url := url ++ "/customers/search",
           params := some [("id", getProp query "id"), ("name", getProp query "name"),
             ("alias", getProp query "alias")] }]
      ∧ sentParams [("id", getProp query "id"), ("name", getProp query "name"),
          ("alias", getProp query "alias")] = suppliedParams query := by
  constructor
  · have h1 : ¬ ((!(getProp query "id").truthy && !(getProp query "name").truthy
        && !(getProp query "alias").truthy) = true) := by
      revert hv
      cases (getProp query "id").truthy <;> cases (getProp query "name").truthy <;>
        cases (getProp query "alias").truthy <;> decide
    simp only [getCustomersSearch, if_neg h1]
    split
    · rfl
    · exact catchBlock_calls _ _ _ _
  · have hid := sentParams_singleton query hq "id"
    have hname := sentParams_singleton query hq "name"
    have halias := sentParams_singleton query hq "alias"
    have happ : ∀ a b c : String × JsValue,
        sentParams [a, b, c] = sentParams [a] ++ sentParams [b] ++ sentParams [c] := by
      intro a b c
      simp only [sentParams, List.filter_cons, List.filter_nil]
      repeat split <;> simp
    rw [happ, hid, hname, halias]
    simp only [suppliedParams, List.filterMap_cons, List.filterMap_nil]
    cases query.lookup "id" <;> cases query.lookup "name" <;> cases query.lookup "alias" <;> rfl

/-- Witness for C8: a search with only alias supplied sends exactly alias. -/
theorem search_forwards_supplied_params_witness :
    sentParams [("id", getProp [("alias", JsValue.str "A")] "id"),
        ("name", getProp [("alias", JsValue.str "A")] "name"),
        ("alias", getProp [("alias", JsValue.str "A")] "alias")] =
      suppliedParams [("alias", JsValue.str "A")]
    ∧ suppliedParams [("alias", JsValue.str "A")] = [("alias", JsValue.str "A")] :=
  ⟨(search_forwards_supplied_params defaultDataServiceUrl (answering 200 alice)
    [("alias", JsValue.str "A")] (by simp [JsValue.isQueryValue]) (by decide)).2,
    by simp [suppliedParams, List.lookup]⟩

/-! ## Health -/

/-- The health handler answers 200 whatever the probe did, and makes exactly
the probe call. -/
theorem getHealth_status_and_call (url : String) (axios : DataService) :
    (getHealth url axios).res.statusCode = 200
      ∧ (getHealth url axios).calls = [{ method := Method.GET, url := url ++ "/health" }] := by
  simp only [getHealth]
  split
  · split <;> exact ⟨rfl, rfl⟩
  · exact ⟨rfl, rfl⟩

/-- C9 at a probe that the data service answers with status 503: axios rejects
the call with that response attached, and the handler answers 200 with
dependency status unavailable, where the claim says unhealthy. -/
theorem health_probe_answered_503_reported_unavailable :
    (rejecting 503 (healthBody "unhealthy" "down"))
        { method := Method.GET, url := "http://localhost:3002/health" } =
        Except.error { message := "Request failed with status code " ++ toString 503,
                       response := some { status := 503,
                                          data := healthBody "unhealthy" "down" } }
      ∧ (getHealth defaultDataServiceUrl (rejecting 503 (healthBody "unhealthy" "down"))).res =
        { statusCode := 200, body := some (healthBody "degraded" "unavailable") } :=
  ⟨rfl, rfl⟩

/-! ## Update -/

/-- C10, as stated, fails: in an update whose body is name with the empty
string, name is present and dob is absent, yet the request is answered 400
with the message that a field to update is required, and no call is made. -/
theorem update_empty_name_rejected :
    (getProp [("name", JsValue.str "")] "name").isPresent = true
      ∧ (getProp [("name", JsValue.str "")] "dob").isMissing = true
      ∧ (putCustomer defaultDataServiceUrl sampleDateParse (answering 200 alice) "7"
          [("name", JsValue.str "")]).res =
        { statusCode := 400,
          body := some (errorBody "At least one field to update is required") }
      ∧ (putCustomer defaultDataServiceUrl sampleDateParse (answering 200 alice) "7"
          [("name", JsValue.str "")]).calls = [] := by
  refine ⟨by decide, by decide, ?_, ?_⟩ <;>
    simp [putCustomer, getProp, List.lookup, JsValue.truthy, Res.status, Res.json]

/-- C10, amended: an update request is answered 400 with the message that a
field to update is required, without any call, exactly when none of name,
alias, dob has a truthy value; every update request in which one of them is
truthy and dob is falsy or parseable (`Date.parse(dob)` a number) makes
exactly one call, a PUT to the update endpoint of the path id with the object
of the three fields as received. -/
theorem update_rejected_iff_no_truthy_field (url : String)
    (dateParse : DateParse) (axios : DataService) (id : String)
    (body : List (String × JsValue)) :
    (((putCustomer url dateParse axios id body).res =
          { statusCode := 400,
            body := some (errorBody "At least one field to update is required") }
        ∧ (putCustomer url dateParse axios id body).calls = [])
      ↔ ((getProp body "name").truthy || (getProp body "alias").truthy
          || (getProp body "dob").truthy) = false)
    ∧ (((getProp body "name").truthy || (getProp body "alias").truthy
          || (getProp body "dob").truthy) = true →
        ((getProp body "dob").truthy = false
          ∨ ∃ t : Int, dateParse (getProp body "dob") = Except.ok (some t)) →
        (putCustomer url dateParse axios id body).calls =
          [{ method := Method.PUT, url := url ++ "/customers/" ++ id,
             data := some (JsValue.obj [("name", getProp body "name"),
               ("alias", getProp body "alias"), ("dob", getProp body "dob")]) }]) := by
  have hguard : ((getProp body "name").truthy || (getProp body "alias").truthy
        || (getProp body "dob").truthy) = true →
      ¬ ((!(getProp body "name").truthy && !(getProp body "alias").truthy
        && !(getProp body "dob").truthy) = true) := by
    cases (getProp body "name").truthy <;> cases (getProp body "alias").truthy <;>
      cases (getProp body "dob").truthy <;> decide
  refine ⟨⟨?_, ?_⟩, ?_⟩
  · rintro ⟨hr, hc⟩
    cases ht : ((getProp body "name").truthy || (getProp body "alias").truthy
        || (getProp body "dob").truthy)
    · rfl
    · exfalso
      have h1 := hguard ht
      simp only [putCustomer, if_neg h1] at hr hc
      cases hdp : dobInvalid dateParse (getProp body "dob") with
      | error m =>
        simp only [hdp, catchBlock, Res.status, Res.json] at hr
        simp at hr
      | ok invalid =>
        cases invalid with
        | true =>
          simp only [hdp, if_true, Res.status, Res.json] at hr
          simp [errorBody] at hr
        | false =>
          simp only [hdp, Bool.false_eq_true, if_false] at hc
          split at hc
          · cases hc
          · rw [catchBlock_calls] at hc
            cases hc
  · intro hf
    have h1 : (!(getProp body "name").truthy && !(getProp body "alias").truthy
        && !(getProp body "dob").truthy) = true := by
      revert hf
      cases (getProp body "name").truthy <;> cases (getProp body "alias").truthy <;>
        cases (getProp body "dob").truthy <;> decide
    simp only [putCustomer, if_pos h1, Res.status, Res.json, and_self]
  · intro ht hd
    have h1 := hguard ht
    have h2 : dobInvalid dateParse (getProp body "dob") = Except.ok false := by
      rcases hd with hd | ⟨t, hd⟩
      · exact dobInvalid_of_falsy dateParse hd
      · exact dobInvalid_of_parsed dateParse hd
    simp only [putCustomer, if_neg h1, h2, Bool.false_eq_true, if_false]
    split
    · rfl
    · exact catchBlock_calls _ _ _ _

/-- Witness for C10: the update of customer 7 with name "Bob" is forwarded. -/
theorem update_rejected_iff_no_truthy_field_witness :
    (putCustomer defaultDataServiceUrl sampleDateParse (answering 200 alice) "7"
        [("name", JsValue.str "Bob")]).calls =
      [{ method := Method.PUT, url := defaultDataServiceUrl ++ "/customers/" ++ "7",
         data := some (JsValue.obj [("name", JsValue.str "Bob"),
           ("alias", JsValue.undefined), ("dob", JsValue.undefined)]) }] :=
  (update_rejected_iff_no_truthy_field defaultDataServiceUrl sampleDateParse
    (answering 200 alice) "7" [("name", JsValue.str "Bob")]).2 (by decide) (Or.inl (by decide))

end APIService
